import Mathlib

/-!
Shallow embedding of the OCRProcessor subsystem of the mathscan repository
(src/ocrprocessor.cpp together with include/ocrprocessor.h).

Qt and Tesseract are external collaborators of this code.  Their observable
behaviour at the call boundary is passed in as explicit inputs (file-system
facts about the path, the decoded image, the engine outcome of one
recognition run, timer readings), while every piece of control flow and data
flow of OCRProcessor itself is translated from the C++ source, statement by
statement.  Machine integers of the source are modelled as Lean `Int`
(no arithmetic in this subsystem can overflow 32 bits), and `qreal`
arithmetic in the one place it occurs (`preprocessImage`) is modelled with
exact rational rounding, noted at the definition.
-/

namespace MathScan

/-- Processing modes (include/ocrprocessor.h, `enum class ProcessingMode`). -/
inductive ProcessingMode
  | Auto
  | Text
  | Equations
  | Mixed
deriving DecidableEq, Repr

/-- OCR configuration (include/ocrprocessor.h, `struct OCRConfig`), with the
field defaults of the header. -/
structure OCRConfig where
  mode : ProcessingMode := ProcessingMode.Auto
  language : String := "eng"
  dpi : Int := 300
  preprocessImage : Bool := true
  enableConfidenceScoring : Bool := true
  minimumConfidence : Int := 60
deriving DecidableEq, Repr

/-- Qt `QSize`.  A default-constructed `QSize()` is the invalid size
`(-1, -1)`, which is what the field initializer `QSize imageSize;` of
`OCRResult` produces. -/
structure QSize where
  width : Int := -1
  height : Int := -1
deriving DecidableEq, Repr

/-- OCR result (include/ocrprocessor.h, `struct OCRResult`), with the field
defaults of the header.  `confidence` is a C++ `float`, but the only value
ever stored in it is the `int` returned by `MeanTextConf()` (0..100), so it
is modelled as `Int`; its default 0.0f becomes 0. -/
structure OCRResult where
  text : String := ""
  confidence : Int := 0
  success : Bool := false
  errorMessage : String := ""
  imageSize : QSize := {}
  processingTimeMs : Int := 0
deriving DecidableEq, Repr

/-- Qt image pixel formats, restricted to the ones this code distinguishes.
`Invalid` is the format of a null `QImage()`. -/
inductive QImageFormat
  | Invalid
  | Grayscale8
  | RGB32
  | Other
deriving DecidableEq, Repr

/-- Resampling filters of `QImage::scaled` (Qt `Qt::TransformationMode`). -/
inductive TransformationMode
  | FastTransformation
  | SmoothTransformation
deriving DecidableEq, Repr

/-- Qt `QImage`, modelled by the observables this code reads: dimensions and
pixel format.  `resampleFilter` records which resampling filter, if any,
produced the image (none for a decoded or constructed image); it models the
otherwise-unobservable choice of filter passed to `QImage::scaled`. -/
structure QImage where
  width : Int := 0
  height : Int := 0
  format : QImageFormat := QImageFormat.Invalid
  resampleFilter : Option TransformationMode := none
deriving DecidableEq, Repr

/-- Size of a `QImage` (`QImage::size()`). -/
def QImage.size (img : QImage) : QSize := { width := img.width, height := img.height }

/-- Qt `QImage::isNull`: an image with no pixel data; observably, one whose
size is empty. -/
def QImage.isNull (img : QImage) : Bool := img.width ≤ 0 || img.height ≤ 0

/-- A null `QImage()`. -/
def nullQImage : QImage := {}

/-- Qt `QImage::convertToFormat`: same pixel grid, new format. -/
def convertToFormat (img : QImage) (f : QImageFormat) : QImage := { img with format := f }

/-- Qt `QString::toLower`, per-character simple lowercasing (the extensions
and format names compared here are ASCII, where Qt's and Lean's per-character
lowercasing agree). -/
def qtToLower (s : String) : String := String.mk (s.data.map Char.toLower)

/-- Qt `QChar::isSpace` restricted to ASCII: the six ASCII whitespace
characters (space, tab, line feed, vertical tab, form feed, carriage
return). -/
def qtIsSpace (c : Char) : Bool :=
  c == ' ' || c == '\t' || c == '\n' || c == '\x0b' || c == '\x0c' || c == '\r'

/-- Qt `QString::trimmed`: the string with leading and trailing whitespace
removed. -/
def qtTrimmed (s : String) : String :=
  String.mk (((s.data.dropWhile qtIsSpace).reverse.dropWhile qtIsSpace).reverse)

/-- Facts `QFileInfo(imagePath)` reports about a path: existence, regular-file
status, and the extension (`QFileInfo::suffix`, the text after the last dot). -/
structure FileInfo where
  fileExists : Bool
  isFile : Bool
  suffix : String
deriving DecidableEq, Repr

/-- The fixed OCR-suitable extension allowlist of `getSupportedFormats`
(src/ocrprocessor.cpp lines 301-303). -/
def ocrFormatAllowlist : List String :=
  ["png", "jpg", "jpeg", "tiff", "tif", "bmp", "gif", "webp"]

/-- `OCRProcessor::getSupportedFormats` (src/ocrprocessor.cpp lines 290-312):
lowercases each format name reported by `QImageReader::supportedImageFormats()`
and keeps those equal to one of the eight allowlisted literals.  The
`s_supportedFormats` static cache is behaviourally transparent (same reader
format list gives the same cached value), so the function is modelled as a
pure function of the reader's format list. -/
def getSupportedFormats (readerFormats : List String) : List String :=
  (readerFormats.map qtToLower).filter (fun f => ocrFormatAllowlist.contains f)

/-- `OCRProcessor::validateImage` (src/ocrprocessor.cpp lines 272-285):
the file must exist, be a regular file, and its lowercased suffix must be in
the supported-format list. -/
def validateImage (fi : FileInfo) (readerFormats : List String) : Bool :=
  if !fi.fileExists || !fi.isFile then false
  else (getSupportedFormats readerFormats).contains (qtToLower fi.suffix)

/-- Tesseract page segmentation modes used by this code. -/
inductive PageSegMode
  | PSM_AUTO
  | PSM_SINGLE_BLOCK
deriving DecidableEq, Repr

/-- The restricted character allowlist pushed to the engine for
Equations/Mixed modes (src/ocrprocessor.cpp lines 413-415). -/
def mathCharAllowlist : String :=
  "0123456789+-*/=()[]\x7b\x7d^_abcdefghijklmnopqrstuvwxyzABCDEFGHIJKLMNOPQRSTUVWXYZ .,"

/-- The engine-side settings `applyConfiguration` programs into the Tesseract
handle: page-segmentation mode, the `tessedit_ocr_engine_mode` variable, the
`user_defined_dpi` variable and the `tessedit_char_whitelist` variable
(`none` = never set since engine creation; `SetVariable` only overwrites). -/
structure EngineSettings where
  psm : Option PageSegMode := none
  ocrEngineMode : Option String := none
  userDefinedDpi : Option Int := none
  charAllowlist : Option String := none
deriving DecidableEq, Repr

/-- The page-segmentation mode chosen from the processing mode
(src/ocrprocessor.cpp lines 384-398): Text/Mixed/Auto/default map to
`PSM_AUTO`, Equations to `PSM_SINGLE_BLOCK`. -/
def psmForMode : ProcessingMode → PageSegMode
  | ProcessingMode.Text => PageSegMode.PSM_AUTO
  | ProcessingMode.Equations => PageSegMode.PSM_SINGLE_BLOCK
  | ProcessingMode.Mixed => PageSegMode.PSM_AUTO
  | ProcessingMode.Auto => PageSegMode.PSM_AUTO

/-- `OCRProcessor::applyConfiguration` (src/ocrprocessor.cpp lines 376-420),
as its effect on the engine settings: sets the page-segmentation mode from
`m_config.mode`, sets the LSTM engine-mode variable, sets the DPI variable
when `m_config.dpi > 0`, and installs the restricted character allowlist for
Equations/Mixed (settings not written keep their previous value).  The
function itself returns true on every path once the API object exists. -/
def applyConfiguration (cfg : OCRConfig) (es : EngineSettings) : EngineSettings :=
  let es := { es with psm := some (psmForMode cfg.mode), ocrEngineMode := some "1" }
  let es := if cfg.dpi > 0 then { es with userDefinedDpi := some cfg.dpi } else es
  if cfg.mode == ProcessingMode.Equations || cfg.mode == ProcessingMode.Mixed then
    { es with charAllowlist := some mathCharAllowlist }
  else es

/-- `qRound(v * (dpi / 300.0))` for a nonnegative dimension `v` and dpi,
modelled with exact rational arithmetic: round-half-up of `v * dpi / 300`
(for the nonnegative operands occurring here, `qRound`'s half-away-from-zero
is half-up, and the `double` quotient `dpi / 300.0` is exact in every case a
theorem below depends on). -/
def qRoundScaled (v dpi : Int) : Int := (2 * v * dpi + 300) / 600

/-- `QSize::scaled(s, Qt::KeepAspectRatio)` (Qt source): the largest size
fitting inside `s` that preserves the aspect ratio of `cur`, computed with
integer division exactly as Qt does. -/
def qsizeScaledKeepAspect (cur s : QSize) : QSize :=
  if cur.width == 0 || cur.height == 0 then s
  else
    let rw : Int := s.height * cur.width / cur.height
    if rw ≤ s.width then { width := rw, height := s.height }
    else { width := s.width, height := s.width * cur.height / cur.width }

/-- Whether a `QSize` is empty (`QSize::isEmpty`: width or height < 1). -/
def QSize.isEmpty (s : QSize) : Bool := s.width < 1 || s.height < 1

/-- `QImage::scaled(newSize, Qt::KeepAspectRatio, mode)`: a null input gives a
null image; the result size is `size().scaled(newSize, KeepAspectRatio)`; if
that equals the current size the image is returned unchanged; an empty result
size gives a null image; otherwise the image is resampled to the new size
with the given filter (format preserved). -/
def qimageScaled (img : QImage) (newSize : QSize) (mode : TransformationMode) : QImage :=
  if img.isNull then nullQImage
  else
    let ns := qsizeScaledKeepAspect img.size newSize
    if ns == img.size then img
    else if ns.isEmpty then nullQImage
    else { img with width := ns.width, height := ns.height, resampleFilter := some mode }

/-- The grayscale-normalization step of `preprocessImage`
(src/ocrprocessor.cpp lines 428-433): convert to `Format_Grayscale8` unless
the image already has that format. -/
def grayscaled (img : QImage) : QImage :=
  if img.format != QImageFormat.Grayscale8 then convertToFormat img QImageFormat.Grayscale8
  else img

/-- `OCRProcessor::preprocessImage` (src/ocrprocessor.cpp lines 425-444):
grayscale conversion, then, when `m_config.dpi > 0 && m_config.dpi != 300`,
an aspect-ratio-preserving smooth rescale to
`processed.size() * (m_config.dpi / 300.0)`. -/
def preprocessImage (cfg : OCRConfig) (image : QImage) : QImage :=
  let processed := grayscaled image
  if cfg.dpi > 0 && cfg.dpi != 300 then
    let newSize : QSize :=
      { width := qRoundScaled processed.width cfg.dpi
        height := qRoundScaled processed.height cfg.dpi }
    qimageScaled processed newSize TransformationMode.SmoothTransformation
  else processed

/-- What the Tesseract engine does in one `extractText` run, at the boundary
this code observes: `text t conf` — `GetUTF8Text()` returns a buffer decoding
to `t` and `MeanTextConf()` returns `conf`; `noText` — `GetUTF8Text()`
returns a null pointer; `throws w` — a `std::exception` with message `w`
escapes the engine calls inside `extractText`'s try block. -/
inductive EngineOutcome
  | text (t : String) (conf : Int)
  | noText
  | throws (w : String)
deriving DecidableEq, Repr

/-- External behaviour of one pass through the QImage-overload pipeline:
`pipelineExc` is the message of a `std::exception` thrown by
`preprocessImage`/`convertImageForTesseract` before `extractText` is reached
(caught by the overload's own catch block, src/ocrprocessor.cpp line 180),
`none` when the pipeline reaches `extractText`; `outcome` is the engine's
behaviour inside `extractText`. -/
structure EngineRun where
  pipelineExc : Option String := none
  outcome : EngineOutcome
deriving DecidableEq, Repr

/-- `OCRProcessor::extractText` (src/ocrprocessor.cpp lines 476-523).  On a
text buffer: stores the decoded text; with confidence scoring enabled, stores
`MeanTextConf()` and sets success exactly when it reaches
`m_config.minimumConfidence`, otherwise records the below-threshold message
(built by `QString::arg`; the float confidence is integer-valued, so Qt's
default 'g' formatting prints it without a decimal point); with scoring
disabled, success is non-emptiness of the trimmed text.  A null buffer or a
caught exception yields the corresponding error message.  The fresh
`OCRResult result;` of line 479 leaves `imageSize` at its default invalid
value on every path. -/
def extractText (cfg : OCRConfig) (outcome : EngineOutcome) : OCRResult :=
  match outcome with
  | EngineOutcome.throws w =>
      { errorMessage := "Exception during text extraction: " ++ w }
  | EngineOutcome.noText =>
      { errorMessage := "Tesseract failed to extract text" }
  | EngineOutcome.text t conf =>
      if cfg.enableConfidenceScoring then
        if conf ≥ cfg.minimumConfidence then
          { text := t, confidence := conf, success := true }
        else
          { text := t, confidence := conf,
            errorMessage := "OCR confidence (" ++ toString conf
              ++ "%) below threshold (" ++ toString cfg.minimumConfidence ++ "%)" }
      else
        { text := t, success := !((qtTrimmed t).isEmpty) }

/-- `OCRProcessor::performOCR(const QImage&)` (src/ocrprocessor.cpp lines
146-187).  `init` is `m_initialized`; `elapsed` is what `timer.elapsed()`
returns at line 178 (the only point this overload reads the timer).  Note the
wholesale assignment `result = extractText(imageData)` of line 177: it
replaces the `result.imageSize` stamped at line 167 with `extractText`'s
default-invalid `imageSize`; only the catch path of line 180 keeps the stamp. -/
def performOCRImage (init : Bool) (cfg : OCRConfig) (run : EngineRun)
    (image : QImage) (elapsed : Int) : OCRResult :=
  if !init then { errorMessage := "OCR processor not initialized" }
  else if image.isNull then { errorMessage := "Invalid image provided" }
  else
    -- line 167: result.imageSize = image.size();
    let r0 : OCRResult := { imageSize := image.size }
    match run.pipelineExc with
    | some w => { r0 with errorMessage := "OCR processing failed: " ++ w }
    | none =>
        -- line 177 overwrites r0 wholesale, line 178 stamps the time
        let r := extractText cfg run.outcome
        { r with processingTimeMs := elapsed }

/-- `OCRProcessor::performOCR(const QString&)` (src/ocrprocessor.cpp lines
102-141).  `fi` and `loaded` are what `QFileInfo(imagePath)` and
`QImage(imagePath)` report for the path (`loaded.isNull` = decode failure);
`innerElapsed` is the inner overload's timer reading, `outerElapsed` what
`timer.elapsed()` returns at line 137.  The early returns of lines 112-130
never read the timer, leaving `processingTimeMs` at its default 0, and the
`result.imageSize` stamp of line 132 is dead: line 136 overwrites the whole
result with the inner overload's return value. -/
def performOCRPath (init : Bool) (cfg : OCRConfig) (run : EngineRun)
    (fi : FileInfo) (readerFormats : List String) (loaded : QImage)
    (path : String) (innerElapsed outerElapsed : Int) : OCRResult :=
  if !init then { errorMessage := "OCR processor not initialized" }
  else if !(validateImage fi readerFormats) then
    { errorMessage := "Invalid or unsupported image file: " ++ path }
  else if loaded.isNull then
    { errorMessage := "Failed to load image: " ++ path }
  else
    let r := performOCRImage init cfg run loaded innerElapsed
    { r with processingTimeMs := outerElapsed }

/-- Session state of an `OCRProcessor` object: `m_initialized`, `m_config`,
and the settings last programmed into the Tesseract handle. -/
structure SessionState where
  initialized : Bool
  config : OCRConfig
  engine : EngineSettings
deriving DecidableEq, Repr

/-- `OCRProcessor::performOCR(const QString&, ProcessingMode)`
(src/ocrprocessor.cpp lines 192-208): saves `m_config.mode`, overwrites it
with `mode`, reapplies the configuration to the engine, delegates to
`performOCR(imagePath)`, restores the saved mode and reapplies again.
Returns the delegated result together with the session state after the call. -/
def performOCRWithMode (st : SessionState) (mode : ProcessingMode) (run : EngineRun)
    (fi : FileInfo) (readerFormats : List String) (loaded : QImage)
    (path : String) (innerElapsed outerElapsed : Int) : OCRResult × SessionState :=
  let originalMode := st.config.mode                     -- line 194
  let cfg := { st.config with mode := mode }             -- line 195
  let es := applyConfiguration cfg st.engine             -- line 198
  let result := performOCRPath st.initialized cfg run fi readerFormats loaded
    path innerElapsed outerElapsed                       -- line 201
  let cfg2 := { cfg with mode := originalMode }          -- line 204
  let es2 := applyConfiguration cfg2 es                  -- line 205
  (result, { st with config := cfg2, engine := es2 })

/-- Events a public operation of the session performs on its shared state:
mutex acquisition/release (`QMutexLocker` construction and scope exit), reads
and writes of the stored `m_config`, and calls into the Tesseract handle
`m_tesseractAPI`. -/
inductive Event
  | lock
  | unlock
  | configRead
  | configWrite
  | engineUse
deriving DecidableEq, Repr

/-- Engine/config events of `applyConfiguration` (src/ocrprocessor.cpp lines
376-420): reads `m_config.mode` (line 385), `SetPageSegMode` (line 400),
`SetVariable` for the engine mode (line 403), reads `m_config.dpi` and, when
positive, `SetVariable` for the DPI (lines 406-409), and `SetVariable` for
the character allowlist in Equations/Mixed modes (lines 412-416). -/
def applyConfigurationTrace (cfg : OCRConfig) : List Event :=
  [Event.configRead, Event.engineUse, Event.engineUse]
  ++ (if cfg.dpi > 0 then [Event.configRead, Event.engineUse] else [Event.configRead])
  ++ (if cfg.mode == ProcessingMode.Equations || cfg.mode == ProcessingMode.Mixed then
        [Event.engineUse] else [])

/-- Engine/config events of `extractText` (src/ocrprocessor.cpp lines
476-523): `SetImage` (line 483), `GetUTF8Text` (line 487); on a text buffer,
reading `m_config.enableConfidenceScoring` (line 494) and, when scoring,
`MeanTextConf` (line 495) and reading `m_config.minimumConfidence`
(line 498). -/
def extractTextTrace (cfg : OCRConfig) (outcome : EngineOutcome) : List Event :=
  [Event.engineUse, Event.engineUse]
  ++ (match outcome with
      | EngineOutcome.text _ _ =>
          Event.configRead ::
            (if cfg.enableConfidenceScoring then [Event.engineUse, Event.configRead] else [])
      | EngineOutcome.noText => []
      | EngineOutcome.throws _ => [])

/-- Events of the body of `performOCR(const QImage&)` once the mutex of line
147 is held: reading `m_config.preprocessImage` (line 171), the config reads
of `preprocessImage` when enabled, then the `extractText` events when the
pipeline reaches it. -/
def performOCRImageBody (init : Bool) (cfg : OCRConfig) (run : EngineRun)
    (image : QImage) : List Event :=
  if !init then []
  else if image.isNull then []
  else
    (Event.configRead :: (if cfg.preprocessImage then [Event.configRead] else []))
    ++ (match run.pipelineExc with
        | some _ => []
        | none => extractTextTrace cfg run.outcome)

/-- Event trace of `performOCR(const QImage&)` (src/ocrprocessor.cpp lines
146-187): `QMutexLocker` at line 147 brackets the whole body. -/
def performOCRImageTrace (init : Bool) (cfg : OCRConfig) (run : EngineRun)
    (image : QImage) : List Event :=
  Event.lock :: (performOCRImageBody init cfg run image ++ [Event.unlock])

/-- Event trace of `performOCR(const QString&)` (src/ocrprocessor.cpp lines
102-141): `QMutexLocker` at line 103 brackets the body; past validation and
decode, line 136 calls the QImage overload, whose own locker appears nested
inside. -/
def performOCRPathTrace (init : Bool) (cfg : OCRConfig) (run : EngineRun)
    (fi : FileInfo) (readerFormats : List String) (loaded : QImage) : List Event :=
  Event.lock ::
    ((if !init then []
      else if !(validateImage fi readerFormats) then []
      else if loaded.isNull then []
      else performOCRImageTrace init cfg run loaded)
     ++ [Event.unlock])

/-- Event trace of `performOCR(const QString&, ProcessingMode)`
(src/ocrprocessor.cpp lines 192-208).  The function takes no lock of its own:
it reads and writes `m_config.mode` (lines 194-195), reapplies the
configuration (line 198), delegates to the locked path overload (line 201),
then writes and reapplies again (lines 204-205). -/
def performOCRWithModeTrace (init : Bool) (cfg : OCRConfig) (mode : ProcessingMode)
    (run : EngineRun) (fi : FileInfo) (readerFormats : List String)
    (loaded : QImage) : List Event :=
  Event.configRead :: Event.configWrite ::
    (applyConfigurationTrace { cfg with mode := mode }
     ++ performOCRPathTrace init { cfg with mode := mode } run fi readerFormats loaded
     ++ Event.configWrite :: applyConfigurationTrace cfg)

/-- Event trace of `getConfig` (src/ocrprocessor.cpp lines 213-216). -/
def getConfigTrace : List Event := [Event.lock, Event.configRead, Event.unlock]

/-- Event trace of `setConfig` (src/ocrprocessor.cpp lines 221-228). -/
def setConfigTrace (cfg : OCRConfig) : List Event :=
  Event.lock :: Event.configWrite :: (applyConfigurationTrace cfg ++ [Event.unlock])

/-- Event trace of `isInitialized` (src/ocrprocessor.cpp lines 233-236): the
locker plus a read of `m_initialized` (neither config nor engine). -/
def isInitializedTrace : List Event := [Event.lock, Event.unlock]

/-- Event trace of `getAvailableLanguages` (src/ocrprocessor.cpp lines
241-260): the locker, then, when initialized, the
`GetAvailableLanguagesAsVector` engine call. -/
def getAvailableLanguagesTrace (init : Bool) : List Event :=
  Event.lock :: ((if init then [Event.engineUse] else []) ++ [Event.unlock])

/-- Whether every config/engine event of a trace happens while the mutex is
held, tracking lock depth. -/
def guardedAux : Nat → List Event → Bool
  | _, [] => true
  | d, Event.lock :: es => guardedAux (d + 1) es
  | d, Event.unlock :: es => guardedAux (d - 1) es
  | d, _ :: es => decide (0 < d) && guardedAux d es

/-- The mutex discipline the spec describes for a public operation: the
operation acquires the session mutex on entry, and every read/write of the
stored configuration and every engine access happens with the mutex held. -/
def mutexDisciplined (es : List Event) : Bool :=
  (es.head? == some Event.lock) && guardedAux 0 es

/-- A string whose length is positive is not the empty string. -/
theorem ne_empty_of_length_pos (s : String) (h : 0 < s.length) : s ≠ "" := by
  intro he
  rw [he] at h
  exact absurd h (by decide)

/-- Appending on the right cannot shrink a string to empty. -/
theorem length_append_pos_left (a b : String) (h : 0 < a.length) : 0 < (a ++ b).length := by
  rw [String.length_append]
  omega

/-- C1: with confidence scoring enabled, for a recognition call (either the
QImage overload or the path overload that delegates to it) in which the
engine returns a text buffer with mean confidence `c`, the result succeeds
exactly when `c` reaches `minimumConfidence`; equality with the threshold
succeeds, and a below-threshold confidence fails with a populated error
message. -/
theorem performOCR_confidence_scoring_success_iff_threshold
    (cfg : OCRConfig) (t : String) (c : Int) (img : QImage) (fi : FileInfo)
    (fmts : List String) (path : String) (e1 e2 : Int)
    (hs : cfg.enableConfidenceScoring = true)
    (himg : img.isNull = false)
    (hv : validateImage fi fmts = true) :
    ((performOCRImage true cfg ⟨none, EngineOutcome.text t c⟩ img e1).success = true
        ↔ c ≥ cfg.minimumConfidence)
    ∧ ((performOCRPath true cfg ⟨none, EngineOutcome.text t c⟩ fi fmts img path e1 e2).success = true
        ↔ c ≥ cfg.minimumConfidence)
    ∧ (c < cfg.minimumConfidence →
        (performOCRImage true cfg ⟨none, EngineOutcome.text t c⟩ img e1).errorMessage ≠ ""
        ∧ (performOCRPath true cfg ⟨none, EngineOutcome.text t c⟩ fi fmts img path e1 e2).errorMessage ≠ "") := by
  have hmsg : ("OCR confidence (" ++ toString c ++ "%) below threshold ("
      ++ toString cfg.minimumConfidence ++ "%)") ≠ "" := by
    apply ne_empty_of_length_pos
    apply length_append_pos_left
    apply length_append_pos_left
    apply length_append_pos_left
    apply length_append_pos_left
    decide
  by_cases hc : cfg.minimumConfidence ≤ c
  · refine ⟨?_, ?_, ?_⟩
    · simp [performOCRImage, extractText, himg, hs, ge_iff_le, hc]
    · simp [performOCRPath, performOCRImage, extractText, hv, himg, hs, ge_iff_le, hc]
    · intro hlt; omega
  · refine ⟨?_, ?_, ?_⟩
    · simp [performOCRImage, extractText, himg, hs, ge_iff_le, hc]
    · simp [performOCRPath, performOCRImage, extractText, hv, himg, hs, ge_iff_le, hc]
    · intro _
      constructor
      · simpa [performOCRImage, extractText, himg, hs, ge_iff_le, hc] using hmsg
      · simpa [performOCRPath, performOCRImage, extractText, hv, himg, hs, ge_iff_le, hc] using hmsg

/-- C1 witness: the boundary input.  With the default configuration
(threshold 60, scoring enabled) and mean confidence exactly 60, both
overloads succeed; at confidence 59 the image overload fails with a populated
message. -/
theorem performOCR_confidence_scoring_success_iff_threshold_witness :
    (performOCRImage true {} ⟨none, EngineOutcome.text "hi" 60⟩
        { width := 100, height := 50, format := QImageFormat.RGB32 } 3).success = true
    ∧ (performOCRPath true {} ⟨none, EngineOutcome.text "hi" 60⟩
        ⟨true, true, "png"⟩ ["png"]
        { width := 100, height := 50, format := QImageFormat.RGB32 } "scan.png" 3 7).success = true
    ∧ (performOCRImage true {} ⟨none, EngineOutcome.text "hi" 59⟩
        { width := 100, height := 50, format := QImageFormat.RGB32 } 3).success = false
    ∧ (performOCRImage true {} ⟨none, EngineOutcome.text "hi" 59⟩
        { width := 100, height := 50, format := QImageFormat.RGB32 } 3).errorMessage ≠ "" := by
  have h60 := performOCR_confidence_scoring_success_iff_threshold
    {} "hi" 60 { width := 100, height := 50, format := QImageFormat.RGB32 }
    ⟨true, true, "png"⟩ ["png"] "scan.png" 3 7 rfl (by decide) (by decide)
  have h59 := performOCR_confidence_scoring_success_iff_threshold
    {} "hi" 59 { width := 100, height := 50, format := QImageFormat.RGB32 }
    ⟨true, true, "png"⟩ ["png"] "scan.png" 3 7 rfl (by decide) (by decide)
  refine ⟨h60.1.mpr (by decide), h60.2.1.mpr (by decide), ?_, (h59.2.2 (by decide)).1⟩
  have := h59.1
  simp only [ge_iff_le, show ¬((60 : Int) ≤ 59) by decide, iff_false] at this
  exact Bool.not_eq_true _ ▸ Bool.of_not_eq_true this

/-- C2: with confidence scoring disabled, for a recognition call in which the
engine returns a text buffer decoding to `t`, the result succeeds exactly
when `t` is non-empty after trimming whitespace, and the degenerate
empty-after-trimming case fails with no error message. -/
theorem performOCR_scoring_disabled_success_iff_text_nonempty
    (cfg : OCRConfig) (t : String) (c : Int) (img : QImage) (fi : FileInfo)
    (fmts : List String) (path : String) (e1 e2 : Int)
    (hs : cfg.enableConfidenceScoring = false)
    (himg : img.isNull = false)
    (hv : validateImage fi fmts = true) :
    ((performOCRImage true cfg ⟨none, EngineOutcome.text t c⟩ img e1).success = true
        ↔ ¬((qtTrimmed t) = ""))
    ∧ ((performOCRPath true cfg ⟨none, EngineOutcome.text t c⟩ fi fmts img path e1 e2).success = true
        ↔ ¬((qtTrimmed t) = ""))
    ∧ ((qtTrimmed t) = "" →
        (performOCRImage true cfg ⟨none, EngineOutcome.text t c⟩ img e1).success = false
        ∧ (performOCRImage true cfg ⟨none, EngineOutcome.text t c⟩ img e1).errorMessage = "") := by
  by_cases he : (qtTrimmed t) = ""
  · have hie : (qtTrimmed t).isEmpty = true := by rw [he]; rfl
    refine ⟨?_, ?_, ?_⟩
    · simp [performOCRImage, extractText, himg, hs, hie, he, String.isEmpty_iff]
    · simp [performOCRPath, performOCRImage, extractText, hv, himg, hs, hie, he,
        String.isEmpty_iff]
    · intro _
      constructor
      · simp [performOCRImage, extractText, himg, hs, hie]
      · simp [performOCRImage, extractText, himg, hs]
  · have hie : (qtTrimmed t).isEmpty = false := by
      rw [← Bool.not_eq_true, String.isEmpty_iff]
      exact he
    refine ⟨?_, ?_, fun h => absurd h he⟩
    · simp [performOCRImage, extractText, himg, hs, hie, he]
    · simp [performOCRPath, performOCRImage, extractText, hv, himg, hs, hie, he]

/-- C2 witness: a whitespace-only buffer fails without an error message; a
non-blank buffer succeeds. -/
theorem performOCR_scoring_disabled_success_iff_text_nonempty_witness :
    (performOCRImage true { enableConfidenceScoring := false }
        ⟨none, EngineOutcome.text "  \n" 0⟩
        { width := 100, height := 50, format := QImageFormat.RGB32 } 3).success = false
    ∧ (performOCRImage true { enableConfidenceScoring := false }
        ⟨none, EngineOutcome.text "  \n" 0⟩
        { width := 100, height := 50, format := QImageFormat.RGB32 } 3).errorMessage = ""
    ∧ (performOCRPath true { enableConfidenceScoring := false }
        ⟨none, EngineOutcome.text " hi " 0⟩ ⟨true, true, "png"⟩ ["png"]
        { width := 100, height := 50, format := QImageFormat.RGB32 } "scan.png" 3 7).success = true := by
  have hblank := performOCR_scoring_disabled_success_iff_text_nonempty
    { enableConfidenceScoring := false } "  \n" 0
    { width := 100, height := 50, format := QImageFormat.RGB32 }
    ⟨true, true, "png"⟩ ["png"] "scan.png" 3 7 rfl (by decide) (by decide)
  have hhi := performOCR_scoring_disabled_success_iff_text_nonempty
    { enableConfidenceScoring := false } " hi " 0
    { width := 100, height := 50, format := QImageFormat.RGB32 }
    ⟨true, true, "png"⟩ ["png"] "scan.png" 3 7 rfl (by decide) (by decide)
  obtain ⟨h1, h2⟩ := hblank.2.2 (by decide)
  exact ⟨h1, h2, hhi.2.1.mpr (by decide)⟩

/-- C9: with confidence scoring enabled and a below-threshold mean
confidence, the failing result still carries the full recognized text and the
measured confidence, and its error message is exactly the formatted string
naming the measured confidence and the threshold; the text is not discarded.
Stated for the QImage overload, whose result the path overload returns with
only the time stamp changed. -/
theorem low_confidence_result_keeps_text_and_confidence
    (cfg : OCRConfig) (t : String) (c : Int) (img : QImage) (e1 : Int)
    (hs : cfg.enableConfidenceScoring = true)
    (himg : img.isNull = false)
    (hlow : c < cfg.minimumConfidence) :
    (performOCRImage true cfg ⟨none, EngineOutcome.text t c⟩ img e1).text = t
    ∧ (performOCRImage true cfg ⟨none, EngineOutcome.text t c⟩ img e1).confidence = c
    ∧ (performOCRImage true cfg ⟨none, EngineOutcome.text t c⟩ img e1).success = false
    ∧ (performOCRImage true cfg ⟨none, EngineOutcome.text t c⟩ img e1).errorMessage
        = "OCR confidence (" ++ toString c ++ "%) below threshold ("
          ++ toString cfg.minimumConfidence ++ "%)" := by
  have hc : ¬(cfg.minimumConfidence ≤ c) := not_le.mpr hlow
  refine ⟨?_, ?_, ?_, ?_⟩ <;>
    simp [performOCRImage, extractText, himg, hs, ge_iff_le, hc]

/-- C9 witness: confidence 42 against threshold 60 keeps the text and scores
and formats the message from both numbers. -/
theorem low_confidence_result_keeps_text_and_confidence_witness :
    (performOCRImage true {} ⟨none, EngineOutcome.text "lorem" 42⟩
        { width := 100, height := 50, format := QImageFormat.RGB32 } 3).text = "lorem"
    ∧ (performOCRImage true {} ⟨none, EngineOutcome.text "lorem" 42⟩
        { width := 100, height := 50, format := QImageFormat.RGB32 } 3).confidence = 42
    ∧ (performOCRImage true {} ⟨none, EngineOutcome.text "lorem" 42⟩
        { width := 100, height := 50, format := QImageFormat.RGB32 } 3).errorMessage
        = "OCR confidence (42%) below threshold (60%)" := by
  have h := low_confidence_result_keeps_text_and_confidence
    {} "lorem" 42 { width := 100, height := 50, format := QImageFormat.RGB32 } 3
    rfl (by decide) (by decide)
  refine ⟨h.1, h.2.1, ?_⟩
  rw [h.2.2.2]
  decide

/-- C7: for every prior session state, path, mode and run of the engine,
`performOCR(path, mode)` leaves the stored configuration — `mode` and every
other field — exactly equal to its pre-call value, whether or not the
recognition succeeds, and the last configuration applied to the engine after
the call is the restored configuration. -/
theorem mode_override_round_trip_restores_config
    (st : SessionState) (mode : ProcessingMode) (run : EngineRun) (fi : FileInfo)
    (fmts : List String) (loaded : QImage) (path : String) (e1 e2 : Int) :
    (performOCRWithMode st mode run fi fmts loaded path e1 e2).2.config = st.config
    ∧ (performOCRWithMode st mode run fi fmts loaded path e1 e2).2.engine
        = applyConfiguration st.config
            (applyConfiguration { st.config with mode := mode } st.engine)
    ∧ (performOCRWithMode st mode run fi fmts loaded path e1 e2).2.initialized
        = st.initialized := by
  rcases st with ⟨i, ⟨m, l, d, pp, ecs, mc⟩, es⟩
  exact ⟨rfl, rfl, rfl⟩

/-- C4 (code bug): `performOCR(path)` on a decodable 100×50 image with a
successful recognition returns `imageSize` equal to the default-invalid
`QSize(-1, -1)`, not the decoded image's 100×50.  The stamps
`result.imageSize = image.size()` at src/ocrprocessor.cpp lines 132 and 167
are both overwritten by the wholesale assignments `result = performOCR(image)`
(line 136) and `result = extractText(imageData)` (line 177), whose right-hand
sides carry `extractText`'s default-constructed `imageSize`. -/
theorem performOCR_path_imageSize_clobbered :
    (performOCRPath true {} ⟨none, EngineOutcome.text "hello" 80⟩
        ⟨true, true, "png"⟩ ["png"]
        { width := 100, height := 50, format := QImageFormat.RGB32 } "scan.png" 3 7).imageSize
      = { width := -1, height := -1 }
    ∧ (performOCRPath true {} ⟨none, EngineOutcome.text "hello" 80⟩
        ⟨true, true, "png"⟩ ["png"]
        { width := 100, height := 50, format := QImageFormat.RGB32 } "scan.png" 3 7).imageSize
      ≠ { width := 100, height := 50 }
    ∧ (performOCRPath true {} ⟨none, EngineOutcome.text "hello" 80⟩
        ⟨true, true, "png"⟩ ["png"]
        { width := 100, height := 50, format := QImageFormat.RGB32 } "scan.png" 3 7).success
      = true := by
  refine ⟨rfl, by decide, rfl⟩

/-- C6: for a path that does not exist, is not a regular file, or whose
extension is outside the supported-format set, `validateImage` is false and
`performOCR(path)` on an initialized session fails with the
"Invalid or unsupported image file" message, and no engine call occurs during
the operation. -/
theorem invalid_image_rejected_without_engine_use
    (cfg : OCRConfig) (run : EngineRun) (fi : FileInfo) (fmts : List String)
    (loaded : QImage) (path : String) (e1 e2 : Int)
    (h : fi.fileExists = false ∨ fi.isFile = false
        ∨ (getSupportedFormats fmts).contains (qtToLower fi.suffix) = false) :
    validateImage fi fmts = false
    ∧ (performOCRPath true cfg run fi fmts loaded path e1 e2).success = false
    ∧ (performOCRPath true cfg run fi fmts loaded path e1 e2).errorMessage
        = "Invalid or unsupported image file: " ++ path
    ∧ Event.engineUse ∉ performOCRPathTrace true cfg run fi fmts loaded := by
  have hval : validateImage fi fmts = false := by
    rcases h with h | h | h
    · simp [validateImage, h]
    · simp [validateImage, h]
    · by_cases hfe : fi.fileExists
      · by_cases hif : fi.isFile
        · simp [validateImage, hfe, hif]
          simpa using h
        · simp [validateImage, hif]
      · simp [validateImage, hfe]
  refine ⟨hval, ?_, ?_, ?_⟩
  · simp [performOCRPath, hval]
  · simp [performOCRPath, hval]
  · simp [performOCRPathTrace, hval]

/-- C6 witness: a missing "missing.png" is rejected with the message and
without touching the engine. -/
theorem invalid_image_rejected_without_engine_use_witness :
    validateImage ⟨false, false, "png"⟩ ["png"] = false
    ∧ (performOCRPath true {} ⟨none, EngineOutcome.text "x" 80⟩
        ⟨false, false, "png"⟩ ["png"] nullQImage "missing.png" 0 1).success = false
    ∧ (performOCRPath true {} ⟨none, EngineOutcome.text "x" 80⟩
        ⟨false, false, "png"⟩ ["png"] nullQImage "missing.png" 0 1).errorMessage
        = "Invalid or unsupported image file: missing.png"
    ∧ Event.engineUse ∉ performOCRPathTrace true {} ⟨none, EngineOutcome.text "x" 80⟩
        ⟨false, false, "png"⟩ ["png"] nullQImage := by
  have h := invalid_image_rejected_without_engine_use
    {} ⟨none, EngineOutcome.text "x" 80⟩ ⟨false, false, "png"⟩ ["png"]
    nullQImage "missing.png" 0 1 (Or.inl rfl)
  exact ⟨h.1, h.2.1, by rw [h.2.2.1]; rfl, h.2.2.2⟩

/-- C10: `validateImage` matches the extension case-insensitively: for two
suffixes that lowercase character-by-character to the same sequence, the
result is unchanged (existence and regular-file status held fixed), and the
supported-format list holds only names that are their own lowercasing. -/
theorem validateImage_suffix_case_insensitive
    (fe isf : Bool) (s1 s2 : String) (fmts : List String)
    (h : s1.data.map Char.toLower = s2.data.map Char.toLower) :
    validateImage ⟨fe, isf, s1⟩ fmts = validateImage ⟨fe, isf, s2⟩ fmts
    ∧ ∀ f ∈ getSupportedFormats fmts, qtToLower f = f := by
  constructor
  · have hlow : qtToLower s1 = qtToLower s2 := congrArg String.mk h
    simp [validateImage, hlow]
  · intro f hf
    have hmem : f ∈ ocrFormatAllowlist := by
      have := (List.mem_filter.mp hf).2
      simpa using this
    have hcases : f = "png" ∨ f = "jpg" ∨ f = "jpeg" ∨ f = "tiff" ∨ f = "tif"
        ∨ f = "bmp" ∨ f = "gif" ∨ f = "webp" := by
      simpa [ocrFormatAllowlist] using hmem
    rcases hcases with h | h | h | h | h | h | h | h <;> subst h <;> decide

/-- C10 witness: "PNG" and "png" validate identically against a reader that
reports uppercase "PNG", and the cached list is lowercase. -/
theorem validateImage_suffix_case_insensitive_witness :
    validateImage ⟨true, true, "PNG"⟩ ["PNG", "jpg"]
      = validateImage ⟨true, true, "png"⟩ ["PNG", "jpg"]
    ∧ ∀ f ∈ getSupportedFormats ["PNG", "jpg"], qtToLower f = f := by
  exact validateImage_suffix_case_insensitive true true "PNG" "png" ["PNG", "jpg"] (by decide)

/-- C8 counterexample: with configured dpi 0 (≠ 300) the returned image is
not the `dpi/300.0` aspect-preserving smooth rescale of the grayscaled input
that the claim requires for every dpi ≠ 300 — the code rescales only when
`dpi > 0 && dpi != 300` (src/ocrprocessor.cpp line 436), so the image keeps
its original 300×300 size. -/
theorem preprocess_dpi_zero_not_rescaled :
    ({ dpi := 0 } : OCRConfig).dpi ≠ 300
    ∧ preprocessImage { dpi := 0 } { width := 300, height := 300, format := QImageFormat.RGB32 }
      ≠ qimageScaled
          (grayscaled { width := 300, height := 300, format := QImageFormat.RGB32 })
          { width := qRoundScaled 300 0, height := qRoundScaled 300 0 }
          TransformationMode.SmoothTransformation
    ∧ (preprocessImage { dpi := 0 }
        { width := 300, height := 300, format := QImageFormat.RGB32 }).size
      = { width := 300, height := 300 } := by
  refine ⟨by decide, by decide, rfl⟩

/-- C8 (amended): `preprocessImage` always grayscales — the result, when not
null, has format `Format_Grayscale8` — and rescales by `dpi/300.0` with
aspect ratio preserved and the smooth filter exactly when `dpi > 0` and
`dpi ≠ 300` (not for every `dpi ≠ 300`: a non-positive dpi skips the
rescale); outside that guard the grayscaled image is returned at its original
size.  The function reads only its two inputs and returns a new image. -/
theorem preprocess_grayscale_and_guarded_rescale
    (cfg : OCRConfig) (img : QImage) :
    ((preprocessImage cfg img).isNull = false
        → (preprocessImage cfg img).format = QImageFormat.Grayscale8)
    ∧ (cfg.dpi > 0 ∧ cfg.dpi ≠ 300 →
        preprocessImage cfg img
          = qimageScaled (grayscaled img)
              { width := qRoundScaled (grayscaled img).width cfg.dpi
                height := qRoundScaled (grayscaled img).height cfg.dpi }
              TransformationMode.SmoothTransformation)
    ∧ (¬(cfg.dpi > 0 ∧ cfg.dpi ≠ 300) → preprocessImage cfg img = grayscaled img)
    ∧ (grayscaled img).format = QImageFormat.Grayscale8
    ∧ (grayscaled img).size = img.size := by
  have hgray : (grayscaled img).format = QImageFormat.Grayscale8 := by
    by_cases hf : img.format = QImageFormat.Grayscale8
    · simp [grayscaled, bne_iff_ne, hf]
    · simp [grayscaled, convertToFormat, bne_iff_ne, hf]
  have hsize : (grayscaled img).size = img.size := by
    by_cases hf : img.format = QImageFormat.Grayscale8
    · simp [grayscaled, bne_iff_ne, hf]
    · simp [grayscaled, convertToFormat, QImage.size, bne_iff_ne, hf]
  have hfmt : ∀ (base : QImage) (s : QSize) (m : TransformationMode),
      (qimageScaled base s m).isNull = false → (qimageScaled base s m).format = base.format := by
    intro base s m h
    by_cases c1 : base.isNull = true
    · have hn : qimageScaled base s m = nullQImage := by simp [qimageScaled, c1]
      rw [hn] at h
      simp [nullQImage, QImage.isNull] at h
    · by_cases c2 : qsizeScaledKeepAspect base.size s = base.size
      · simp [qimageScaled, c1, c2]
      · by_cases c3 : (qsizeScaledKeepAspect base.size s).isEmpty = true
        · have hn : qimageScaled base s m = nullQImage := by
            simp [qimageScaled, c1, c2, c3]
          rw [hn] at h
          simp [nullQImage, QImage.isNull] at h
        · simp [qimageScaled, c1, c2, c3]
  have hscale : cfg.dpi > 0 ∧ cfg.dpi ≠ 300 →
      preprocessImage cfg img
        = qimageScaled (grayscaled img)
            { width := qRoundScaled (grayscaled img).width cfg.dpi
              height := qRoundScaled (grayscaled img).height cfg.dpi }
            TransformationMode.SmoothTransformation := by
    intro hg
    have hc : (decide (cfg.dpi > 0) && (cfg.dpi != 300)) = true := by
      simp [hg.1, bne_iff_ne, hg.2]
    simp [preprocessImage, hc]
  have hnoscale : ¬(cfg.dpi > 0 ∧ cfg.dpi ≠ 300) →
      preprocessImage cfg img = grayscaled img := by
    intro hg
    have hc : (decide (cfg.dpi > 0) && (cfg.dpi != 300)) = false := by
      rcases not_and_or.mp hg with h | h
      · simp [h]
      · simp [bne_iff_ne, Decidable.not_not.mp h]
    simp [preprocessImage, hc]
  refine ⟨?_, hscale, hnoscale, hgray, hsize⟩
  intro hnn
  by_cases hg : cfg.dpi > 0 ∧ cfg.dpi ≠ 300
  · rw [hscale hg] at hnn ⊢
    rw [hfmt _ _ _ hnn]
    exact hgray
  · rw [hnoscale hg]
    exact hgray

/-- C8 witness: a 300×300 RGB32 image at dpi 150 is grayscaled and
smooth-rescaled to 150×150; at the default dpi 300 it is only grayscaled. -/
theorem preprocess_grayscale_and_guarded_rescale_witness :
    (preprocessImage { dpi := 150 }
        { width := 300, height := 300, format := QImageFormat.RGB32 }).format
      = QImageFormat.Grayscale8
    ∧ preprocessImage { dpi := 150 }
        { width := 300, height := 300, format := QImageFormat.RGB32 }
      = qimageScaled
          (grayscaled { width := 300, height := 300, format := QImageFormat.RGB32 })
          { width := qRoundScaled 300 150, height := qRoundScaled 300 150 }
          TransformationMode.SmoothTransformation
    ∧ preprocessImage {}
        { width := 300, height := 300, format := QImageFormat.RGB32 }
      = grayscaled { width := 300, height := 300, format := QImageFormat.RGB32 } := by
  have h150 := preprocess_grayscale_and_guarded_rescale { dpi := 150 }
    { width := 300, height := 300, format := QImageFormat.RGB32 }
  have h300 := preprocess_grayscale_and_guarded_rescale {}
    { width := 300, height := 300, format := QImageFormat.RGB32 }
  exact ⟨h150.1 (by decide), h150.2.1 (by decide), h300.2.2.1 (by decide)⟩

/-- Helper: the mutex discipline holds for the trace of `setConfig`, whatever
the configuration being applied. -/
theorem mutexDisciplined_setConfigTrace (cfg : OCRConfig) :
    mutexDisciplined (setConfigTrace cfg) = true := by
  by_cases h1 : cfg.dpi > 0 <;>
    by_cases h2 : cfg.mode = ProcessingMode.Equations ∨ cfg.mode = ProcessingMode.Mixed <;>
      simp [setConfigTrace, applyConfigurationTrace, mutexDisciplined, guardedAux, h1, h2]

/-- Helper: the mutex discipline holds for the trace of the QImage overload
of `performOCR`, in every branch of its body. -/
theorem mutexDisciplined_performOCRImageTrace (init : Bool) (cfg : OCRConfig)
    (run : EngineRun) (img : QImage) :
    mutexDisciplined (performOCRImageTrace init cfg run img) = true := by
  rcases run with ⟨pe, oc⟩
  cases init
  · simp [performOCRImageTrace, performOCRImageBody, mutexDisciplined, guardedAux]
  · by_cases hn : img.isNull = true
    · simp [performOCRImageTrace, performOCRImageBody, mutexDisciplined, guardedAux, hn]
    · cases pe with
      | some w =>
          by_cases hp : cfg.preprocessImage = true <;>
            simp [performOCRImageTrace, performOCRImageBody, mutexDisciplined, guardedAux,
              hn, hp]
      | none =>
          cases oc with
          | text t c =>
              by_cases hp : cfg.preprocessImage = true <;>
                by_cases hs : cfg.enableConfidenceScoring = true <;>
                  simp [performOCRImageTrace, performOCRImageBody, extractTextTrace,
                    mutexDisciplined, guardedAux, hn, hp, hs]
          | noText =>
              by_cases hp : cfg.preprocessImage = true <;>
                simp [performOCRImageTrace, performOCRImageBody, extractTextTrace,
                  mutexDisciplined, guardedAux, hn, hp]
          | throws w =>
              by_cases hp : cfg.preprocessImage = true <;>
                simp [performOCRImageTrace, performOCRImageBody, extractTextTrace,
                  mutexDisciplined, guardedAux, hn, hp]

/-- Helper: the mutex discipline holds for the trace of the path overload of
`performOCR`; past validation and decode the nested QImage-overload locker
only deepens the held-lock count. -/
theorem mutexDisciplined_performOCRPathTrace (init : Bool) (cfg : OCRConfig)
    (run : EngineRun) (fi : FileInfo) (fmts : List String) (loaded : QImage) :
    mutexDisciplined (performOCRPathTrace init cfg run fi fmts loaded) = true := by
  rcases run with ⟨pe, oc⟩
  cases init
  · simp [performOCRPathTrace, mutexDisciplined, guardedAux]
  · by_cases hv : validateImage fi fmts = true
    · by_cases hn : loaded.isNull = true
      · simp [performOCRPathTrace, mutexDisciplined, guardedAux, hv, hn]
      · cases pe with
        | some w =>
            by_cases hp : cfg.preprocessImage = true <;>
              simp [performOCRPathTrace, performOCRImageTrace, performOCRImageBody,
                mutexDisciplined, guardedAux, hv, hn, hp]
        | none =>
            cases oc with
            | text t c =>
                by_cases hp : cfg.preprocessImage = true <;>
                  by_cases hs : cfg.enableConfidenceScoring = true <;>
                    simp [performOCRPathTrace, performOCRImageTrace, performOCRImageBody,
                      extractTextTrace, mutexDisciplined, guardedAux, hv, hn, hp, hs]
            | noText =>
                by_cases hp : cfg.preprocessImage = true <;>
                  simp [performOCRPathTrace, performOCRImageTrace, performOCRImageBody,
                    extractTextTrace, mutexDisciplined, guardedAux, hv, hn, hp]
            | throws w =>
                by_cases hp : cfg.preprocessImage = true <;>
                  simp [performOCRPathTrace, performOCRImageTrace, performOCRImageBody,
                    extractTextTrace, mutexDisciplined, guardedAux, hv, hn, hp]
    · simp [performOCRPathTrace, mutexDisciplined, guardedAux, hv]

/-- C3 counterexample: `performOCR(const QString&, ProcessingMode)`
(src/ocrprocessor.cpp lines 192-208) takes no `QMutexLocker` of its own: it
writes `m_config.mode` and reprograms the engine before and after the nested
locked call, so its trace starts with an unguarded config access and is not
mutex-disciplined — refuting the claim that every public operation holds the
mutex for its full duration. -/
theorem mode_override_not_mutex_disciplined :
    mutexDisciplined (performOCRWithModeTrace true {} ProcessingMode.Equations
      ⟨none, EngineOutcome.text "x" 80⟩ ⟨true, true, "png"⟩ ["png"]
      { width := 10, height := 10, format := QImageFormat.RGB32 }) = false := by
  decide

/-- C3 (amended): every public operation of the session except
`performOCR(path, mode)` — that is, both remaining `performOCR` overloads,
`getConfig`, `setConfig`, `isInitialized` and `getAvailableLanguages` —
acquires the session mutex on entry and performs every access to the stored
configuration and the engine handle while holding it; the mode-override
overload instead touches the configuration and engine outside any lock and
holds the mutex only during its nested `performOCR(path)` call. -/
theorem public_operations_mutex_disciplined_except_mode_override
    (init : Bool) (cfg : OCRConfig) (run : EngineRun) (fi : FileInfo)
    (fmts : List String) (img : QImage) :
    mutexDisciplined getConfigTrace = true
    ∧ mutexDisciplined (setConfigTrace cfg) = true
    ∧ mutexDisciplined isInitializedTrace = true
    ∧ mutexDisciplined (getAvailableLanguagesTrace init) = true
    ∧ mutexDisciplined (performOCRImageTrace init cfg run img) = true
    ∧ mutexDisciplined (performOCRPathTrace init cfg run fi fmts img) = true := by
  refine ⟨by decide, mutexDisciplined_setConfigTrace cfg, by decide, ?_,
    mutexDisciplined_performOCRImageTrace init cfg run img,
    mutexDisciplined_performOCRPathTrace init cfg run fi fmts img⟩
  cases init <;> simp [getAvailableLanguagesTrace, mutexDisciplined, guardedAux]

/-- Helper: a string starting with a non-empty literal is non-empty. -/
theorem ne_empty_append (a b : String) (ha : 0 < a.length) : a ++ b ≠ "" :=
  ne_empty_of_length_pos _ (length_append_pos_left a b ha)

/-- C5 counterexample: a `performOCR(path)` call on an uninitialized session
whose timer would read 7 ms at the failure point returns
`processingTimeMs = 0`: the early-return paths of src/ocrprocessor.cpp lines
112-130 never call `timer.elapsed()`, so the claim that every failing result
reflects the elapsed time up to the failure is false there. -/
theorem not_initialized_failure_time_not_stamped :
    (performOCRPath false {} ⟨none, EngineOutcome.text "hello" 80⟩
        ⟨true, true, "png"⟩ ["png"]
        { width := 100, height := 50, format := QImageFormat.RGB32 } "scan.png" 7 7).success
      = false
    ∧ (performOCRPath false {} ⟨none, EngineOutcome.text "hello" 80⟩
        ⟨true, true, "png"⟩ ["png"]
        { width := 100, height := 50, format := QImageFormat.RGB32 } "scan.png" 7 7).errorMessage
      ≠ ""
    ∧ (performOCRPath false {} ⟨none, EngineOutcome.text "hello" 80⟩
        ⟨true, true, "png"⟩ ["png"]
        { width := 100, height := 50, format := QImageFormat.RGB32 } "scan.png" 7 7).processingTimeMs
      = 0
    ∧ (performOCRPath false {} ⟨none, EngineOutcome.text "hello" 80⟩
        ⟨true, true, "png"⟩ ["png"]
        { width := 100, height := 50, format := QImageFormat.RGB32 } "scan.png" 7 7).processingTimeMs
      ≠ 7 := by
  refine ⟨rfl, by decide, rfl, by decide⟩

/-- C5 (amended): every failure on the enumerated paths carries a non-empty
error message, but the timer stamp is taken only once the call reaches the
delegation/extract stage: `performOCR(path)` stamps `processingTimeMs` (from
its own timer) on every post-decode outcome, while its pre-decode failures
(not-initialized, invalid image, decode failure) and, in the QImage overload,
the not-initialized, invalid-image and caught-pipeline-exception paths return
`processingTimeMs = 0`, never read from the timer; failures surfaced through
`extractText`'s return (engine failure, low confidence, exceptions caught
inside `extractText`) are stamped. -/
theorem failing_results_error_messages_and_time_stamps
    (cfg : OCRConfig) (run : EngineRun) (fi : FileInfo) (fmts : List String)
    (img : QImage) (path : String) (e1 e2 : Int) (w t : String) (c : Int) :
    ((performOCRPath false cfg run fi fmts img path e1 e2).success = false
      ∧ (performOCRPath false cfg run fi fmts img path e1 e2).errorMessage ≠ ""
      ∧ (performOCRPath false cfg run fi fmts img path e1 e2).processingTimeMs = 0)
    ∧ (validateImage fi fmts = false →
        (performOCRPath true cfg run fi fmts img path e1 e2).success = false
        ∧ (performOCRPath true cfg run fi fmts img path e1 e2).errorMessage ≠ ""
        ∧ (performOCRPath true cfg run fi fmts img path e1 e2).processingTimeMs = 0)
    ∧ (validateImage fi fmts = true → img.isNull = true →
        (performOCRPath true cfg run fi fmts img path e1 e2).success = false
        ∧ (performOCRPath true cfg run fi fmts img path e1 e2).errorMessage ≠ ""
        ∧ (performOCRPath true cfg run fi fmts img path e1 e2).processingTimeMs = 0)
    ∧ (validateImage fi fmts = true → img.isNull = false →
        (performOCRPath true cfg run fi fmts img path e1 e2).processingTimeMs = e2)
    ∧ ((performOCRImage false cfg run img e1).errorMessage ≠ ""
        ∧ (performOCRImage false cfg run img e1).processingTimeMs = 0)
    ∧ (img.isNull = true →
        (performOCRImage true cfg run img e1).errorMessage ≠ ""
        ∧ (performOCRImage true cfg run img e1).processingTimeMs = 0)
    ∧ (img.isNull = false → run.pipelineExc = some w →
        (performOCRImage true cfg run img e1).errorMessage ≠ ""
        ∧ (performOCRImage true cfg run img e1).processingTimeMs = 0)
    ∧ (img.isNull = false → run.pipelineExc = none →
        (performOCRImage true cfg run img e1).processingTimeMs = e1)
    ∧ (img.isNull = false → run = ⟨none, EngineOutcome.noText⟩ →
        (performOCRImage true cfg run img e1).errorMessage ≠ "")
    ∧ (img.isNull = false → run = ⟨none, EngineOutcome.throws w⟩ →
        (performOCRImage true cfg run img e1).errorMessage ≠ "")
    ∧ (img.isNull = false → run = ⟨none, EngineOutcome.text t c⟩ →
        cfg.enableConfidenceScoring = true → c < cfg.minimumConfidence →
        (performOCRImage true cfg run img e1).errorMessage ≠ "") := by
  refine ⟨⟨?_, ?_, ?_⟩, ?_, ?_, ?_, ⟨?_, ?_⟩, ?_, ?_, ?_, ?_, ?_, ?_⟩
  · simp [performOCRPath]
  · simp [performOCRPath]
  · simp [performOCRPath]
  · intro hv
    refine ⟨?_, ?_, ?_⟩ <;> simp [performOCRPath, hv]
    exact ne_empty_append _ path (by decide)
  · intro hv hn
    refine ⟨?_, ?_, ?_⟩ <;> simp [performOCRPath, hv, hn]
    exact ne_empty_append _ path (by decide)
  · intro hv hn
    simp [performOCRPath, hv, hn]
  · simp [performOCRImage]
  · simp [performOCRImage]
  · intro hn
    constructor <;> simp [performOCRImage, hn]
  · intro hn hpe
    constructor <;> simp [performOCRImage, hn, hpe]
    exact ne_empty_append _ w (by decide)
  · intro hn hpe
    rcases run with ⟨pe, oc⟩
    subst hpe
    simp [performOCRImage, hn]
  · intro hn hrun
    subst hrun
    simp [performOCRImage, extractText, hn]
  · intro hn hrun
    subst hrun
    simp [performOCRImage, extractText, hn]
    exact ne_empty_append _ w (by decide)
  · intro hn hrun hs hlow
    subst hrun
    have hc : ¬(cfg.minimumConfidence ≤ c) := not_le.mpr hlow
    simp [performOCRImage, extractText, hn, hs, ge_iff_le, hc]
    apply ne_empty_append
    apply length_append_pos_left
    apply length_append_pos_left
    apply length_append_pos_left
    decide

/-- C5 witness: with a timer that would read 9 ms, an uninitialized-session
failure and an invalid-image failure return `processingTimeMs = 0` with a
message, a post-decode engine failure is stamped with 9, and the engine
failure carries a message. -/
theorem failing_results_error_messages_and_time_stamps_witness :
    (performOCRPath false {} ⟨none, EngineOutcome.noText⟩ ⟨true, true, "png"⟩ ["png"]
        { width := 100, height := 50, format := QImageFormat.RGB32 } "p" 3 9).processingTimeMs = 0
    ∧ (performOCRPath true {} ⟨none, EngineOutcome.noText⟩ ⟨true, true, "png"⟩ ["png"]
        { width := 100, height := 50, format := QImageFormat.RGB32 } "p" 3 9).processingTimeMs = 9
    ∧ (performOCRPath true {} ⟨none, EngineOutcome.noText⟩ ⟨false, true, "png"⟩ ["png"]
        { width := 100, height := 50, format := QImageFormat.RGB32 } "p" 3 9).errorMessage ≠ ""
    ∧ (performOCRPath true {} ⟨none, EngineOutcome.noText⟩ ⟨false, true, "png"⟩ ["png"]
        { width := 100, height := 50, format := QImageFormat.RGB32 } "p" 3 9).processingTimeMs = 0
    ∧ (performOCRImage true {} ⟨none, EngineOutcome.noText⟩
        { width := 100, height := 50, format := QImageFormat.RGB32 } 3).errorMessage ≠ "" := by
  have h1 := failing_results_error_messages_and_time_stamps {} ⟨none, EngineOutcome.noText⟩
    ⟨true, true, "png"⟩ ["png"] { width := 100, height := 50, format := QImageFormat.RGB32 }
    "p" 3 9 "boom" "x" 0
  have h2 := failing_results_error_messages_and_time_stamps {} ⟨none, EngineOutcome.noText⟩
    ⟨false, true, "png"⟩ ["png"] { width := 100, height := 50, format := QImageFormat.RGB32 }
    "p" 3 9 "boom" "x" 0
  exact ⟨h1.1.2.2, h1.2.2.2.1 (by decide) (by decide),
    (h2.2.1 (by decide)).2.1, (h2.2.1 (by decide)).2.2,
    h1.2.2.2.2.2.2.2.2.1 (by decide) rfl⟩

end MathScan
